import Mathlib

/-!
Shallow embedding of the BindSite analyzer (src/BindSite.py) and proofs about
its report parser, pocket lookup and compatibility aggregation.

Conventions of the embedding:
* a report file is a list of lines (`List String`);
* the file system is abstracted by an existence predicate `String → Bool` and a
  contents map `String → List String`;
* Python `float` values appearing in reports are modelled as rationals;
* a Python function that may raise is modelled as a total function into
  `PyResult`, whose `exn` constructor records the exception class and message.
-/

namespace BindSite

/-- Exceptions raised by the analyzer: `ValueError`, `FileNotFoundError` and the
`IndexError` implicit in Python list indexing. -/
inductive PyErr where
  | valueError (msg : String)
  | fileNotFoundError (msg : String)
  | indexError (msg : String)
deriving DecidableEq

/-- Result of a Python call: a value, or a raised exception. -/
inductive PyResult (α : Type) where
  | ok (val : α)
  | exn (err : PyErr)
deriving DecidableEq

/-- Auxiliary scan for substring containment over character lists. -/
def listContainsSeg (needle : List Char) : List Char → Bool
  | [] => needle.isEmpty
  | c :: rest => needle.isPrefixOf (c :: rest) || listContainsSeg needle rest

/-- Model of the Python expression `sub in s` on strings. -/
def strContains (s sub : String) : Bool :=
  listContainsSeg sub.data s.data

/-- Model of Python `str.startswith(pre)`. -/
def pyStartsWith (s pre : String) : Bool :=
  pre.data.isPrefixOf s.data

/-- Model of Python `str.strip()` with no argument: drop leading and trailing
whitespace. -/
def pyStrip (s : String) : String :=
  String.mk (((s.data.dropWhile Char.isWhitespace).reverse.dropWhile
    Char.isWhitespace).reverse)

/-- Accumulator loop behind `pySplit`: the first argument is the reversed
current token. -/
def pySplitAux : List Char → List Char → List String
  | acc, [] => if acc.isEmpty then [] else [String.mk acc.reverse]
  | acc, c :: rest =>
    if c.isWhitespace then
      if acc.isEmpty then pySplitAux [] rest
      else String.mk acc.reverse :: pySplitAux [] rest
    else pySplitAux (c :: acc) rest

/-- Model of Python `str.split()` with no separator: split on runs of
whitespace, discarding empty pieces. -/
def pySplit (s : String) : List String :=
  pySplitAux [] s.data

/-- Numeric value of a list of decimal digit characters. -/
def digitsVal (cs : List Char) : Nat :=
  cs.foldl (fun a c => a * 10 + (c.toNat - 48)) 0

/-- Split a character list into its leading run of decimal digits and the
remainder. -/
def takeDigits (cs : List Char) : List Char × List Char :=
  (cs.takeWhile Char.isDigit, cs.dropWhile Char.isDigit)

/-- Model of the Python builtin `float()` applied to one token, restricted to
finite decimal literals: optional sign, integer digits, optional fractional
part, optional decimal exponent, with surrounding whitespace stripped.  The
special spellings (`inf`, `nan`, underscore separators) are outside the model;
they do not occur in fpocket reports.  `none` models the `ValueError` raised by
`float()` on a malformed token. -/
def pyFloat? (s : String) : Option ℚ :=
  let cs0 := (pyStrip s).data
  let signRest : Bool × List Char :=
    match cs0 with
    | '+' :: r => (false, r)
    | '-' :: r => (true, r)
    | r => (false, r)
  let (ip, rest1) := takeDigits signRest.2
  let (fp, rest2) :=
    match rest1 with
    | '.' :: r => takeDigits r
    | r => (([] : List Char), r)
  if ip = [] ∧ fp = [] then none
  else
    let num : Int :=
      if signRest.1 then -(digitsVal (ip ++ fp) : Int) else (digitsVal (ip ++ fp) : Int)
    let den : Nat := 10 ^ fp.length
    match rest2 with
    | [] => some (mkRat num den)
    | c :: r =>
      if c = 'e' ∨ c = 'E' then
        let esignRest : Bool × List Char :=
          match r with
          | '+' :: r2 => (false, r2)
          | '-' :: r2 => (true, r2)
          | r2 => (false, r2)
        let (ed, rest3) := takeDigits esignRest.2
        if ed = [] ∨ rest3 ≠ [] then none
        else if esignRest.1 then some (mkRat num (den * 10 ^ digitsVal ed))
        else some (mkRat (num * ((10 ^ digitsVal ed : Nat) : Int)) den)
      else none

/-- A pocket record as built by `parse_fpocket_results`: the dict
`{'atoms': [], 'score': None, 'volume': None}` with the two numeric fields
optionally filled in while scanning.  The `atoms` field is never written. -/
structure Pocket where
  atoms : List String
  score : Option ℚ
  volume : Option ℚ
deriving DecidableEq

/-- The freshly allocated record for a new `Pocket` line. -/
def freshPocket : Pocket := ⟨[], none, none⟩

/-- Model of `try: field = float(parts[-1]) except ValueError: pass`: the field
receives the parsed value of the last token, or keeps its old value when the
token is malformed. -/
def lastFloatUpd (old : Option ℚ) (parts : List String) : Option ℚ :=
  match pyFloat? (parts.getLastD "") with
  | some v => some v
  | none => old

/-- Append the in-progress record, if any, to the accumulated pocket list
(the `self.pockets.append(current_pocket)` flush). -/
def flushPockets (st : List Pocket × Option Pocket) : List Pocket :=
  match st.2 with
  | some p => st.1 ++ [p]
  | none => st.1

/-- One iteration of the scanning loop of `parse_fpocket_results`
(src/BindSite.py lines 71-93) on state (pockets so far, current record). -/
def processLine (st : List Pocket × Option Pocket) (line : String) :
    List Pocket × Option Pocket :=
  if pyStartsWith line "Pocket" then
    (flushPockets st, some freshPocket)
  else
    match st.2 with
    | none => st
    | some p =>
      if pyStrip line = "" then st
      else
        let parts := pySplit (pyStrip line)
        if 2 ≤ parts.length then
          if strContains line "Score" then
            (st.1, some ⟨p.atoms, lastFloatUpd p.score parts, p.volume⟩)
          else if strContains line "Volume" then
            (st.1, some ⟨p.atoms, p.score, lastFloatUpd p.volume parts⟩)
          else st
        else st

/-- The scanning loop of `parse_fpocket_results` over the report's lines,
including the final flush of the in-progress record. -/
def parsePocketLines (lines : List String) : List Pocket :=
  flushPockets (lines.foldl processLine ([], none))

/-- Model of posix `os.path.basename`: the part after the last slash. -/
def pyBasename (p : String) : String :=
  String.mk ((p.data.reverse.takeWhile (fun c => c ≠ '/')).reverse)

/-- Model of `os.path.splitext(name)[0]` on a basename: drop the part from the
last dot on, unless every character before that dot is itself a dot. -/
def splitextRoot (s : String) : String :=
  match s.data.reverse.findIdx? (fun c => c = '.') with
  | none => s
  | some k =>
    let i := s.data.length - 1 - k
    if (s.data.take i).all (fun c => c = '.') then s
    else String.mk (s.data.take i)

/-- The report path `parse_fpocket_results` looks for:
`<basename>_out/<basename>_info.txt` where basename is the structure file's
name without directory and extension (src/BindSite.py lines 57-59). -/
def fpocketInfoFile (pdb_file : String) : String :=
  let base_name := splitextRoot (pyBasename pdb_file)
  base_name ++ "_out/" ++ base_name ++ "_info.txt"

/-- Model of `parse_fpocket_results` (src/BindSite.py lines 55-98) as a state
transformer on `self.pockets`: given the file-existence predicate and the map
from paths to file lines, it returns the raised exception (if any) together
with the new value of `self.pockets`.  The `FileNotFoundError` is raised before
`self.pockets = []`, so on that path the old list is kept. -/
def parse_fpocket_results (fileExists : String → Bool)
    (readLines : String → List String) (pdb_file : String)
    (pockets : List Pocket) : Option PyErr × List Pocket :=
  let info_file := fpocketInfoFile pdb_file
  if fileExists info_file = false then
    (some (.fileNotFoundError ("fpocket output not found at: " ++ info_file)), pockets)
  else
    (none, parsePocketLines (readLines info_file))

/-- Model of Python list indexing `self.pockets[pocket_id]`: a negative index
counts from the end; an index outside `[-len, len)` raises `IndexError`. -/
def pyIndex (l : List Pocket) (i : Int) : PyResult Pocket :=
  let j := if i < 0 then i + l.length else i
  if 0 ≤ j ∧ j < (l.length : Int) then
    .ok (l.getD j.toNat freshPocket)
  else .exn (.indexError "list index out of range")

/-- The record returned by `analyze_pocket`: the dict
`{'volume': ..., 'score': ...}`. -/
structure PocketAnalysis where
  volume : Option ℚ
  score : Option ℚ
deriving DecidableEq

/-- Model of `analyze_pocket` (src/BindSite.py lines 100-109): guard
`if not self.pockets or pocket_id >= len(self.pockets): raise ValueError`,
then Python indexing and projection of the two numeric fields. -/
def analyze_pocket (pockets : List Pocket) (pocket_id : Int) :
    PyResult PocketAnalysis :=
  if pockets.length = 0 ∨ (pockets.length : Int) ≤ pocket_id then
    .exn (.valueError ("Invalid pocket ID: " ++ toString pocket_id))
  else
    match pyIndex pockets pocket_id with
    | .exn e => .exn e
    | .ok p => .ok ⟨p.volume, p.score⟩

/-- The record returned by `analyze_ligand_compatibility`. -/
structure Compatibility where
  pocket_volume : Option ℚ
  pocket_score : Option ℚ
  binding_site_rank : Int
  total_pockets_found : Nat
deriving DecidableEq

/-- Model of `analyze_ligand_compatibility` (src/BindSite.py lines 149-168):
check ligand existence, then delegate to `analyze_pocket` (whose exception
propagates), then package the fields.  The `try` around the dict construction
is omitted: building a dict of already-computed values cannot raise, so the
`except` branch is unreachable. -/
def analyze_ligand_compatibility (fileExists : String → Bool)
    (pockets : List Pocket) (ligand : String) (pocket_id : Int) :
    PyResult Compatibility :=
  if fileExists ligand = false then
    .exn (.fileNotFoundError ("Ligand file not found: " ++ ligand))
  else
    match analyze_pocket pockets pocket_id with
    | .exn e => .exn e
    | .ok pa => .ok ⟨pa.volume, pa.score, pocket_id + 1, pockets.length⟩

/-- State-passing form of `analyze_pocket`: the method only reads
`self.pockets` and never assigns to it or to a record's fields, so the
translated transformer pairs the result with the unchanged list. -/
def analyze_pocket_st (pockets : List Pocket) (pocket_id : Int) :
    PyResult PocketAnalysis × List Pocket :=
  (analyze_pocket pockets pocket_id, pockets)

/-- State-passing form of `analyze_ligand_compatibility`: the method performs
no assignment to `self.protein_analyzer.pockets`, so the state is returned
unchanged. -/
def analyze_ligand_compatibility_st (fileExists : String → Bool)
    (pockets : List Pocket) (ligand : String) (pocket_id : Int) :
    PyResult Compatibility × List Pocket :=
  (analyze_ligand_compatibility fileExists pockets ligand pocket_id, pockets)

/-- An atom as used by `extract_b_factors`: only its B-factor is read. -/
structure PAtom where
  bfactor : ℚ
deriving DecidableEq

/-- A protein structure as traversed by `extract_b_factors`:
model → chain → residue → atom. -/
abbrev PStructure := List (List (List (List PAtom)))

/-- Model of `extract_b_factors` (src/BindSite.py lines 111-119): append every
atom's B-factor in traversal order. -/
def extract_b_factors (struct : PStructure) : List ℚ :=
  struct.foldl
    (fun acc m => m.foldl
      (fun acc c => c.foldl
        (fun acc r => r.foldl (fun acc a => acc ++ [a.bfactor]) acc) acc) acc) []

/-- One tuple yielded by iterating the external DSSP object; the source reads
components 0 (chain id) and 2 (secondary-structure code). -/
structure DsspRow where
  chain_id : String
  ss_type : Char
deriving DecidableEq

/-- One step of the per-residue regrouping loop of
`analyze_secondary_structure`: create the chain's (insertion-ordered) entry on
first sight, then append the code. -/
def ssInsert (m : List (String × List Char)) (cid : String) (ss : Char) :
    List (String × List Char) :=
  if m.any (fun q => q.1 == cid) then
    m.map (fun q => if q.1 == cid then (q.1, q.2 ++ [ss]) else q)
  else m ++ [(cid, [ss])]

/-- Model of `analyze_secondary_structure` (src/BindSite.py lines 121-135).
The external DSSP call — the fallible part of the `try` block — is abstracted
as an `Except` value: `ok rows` models a successful call yielding the iterated
residue tuples, `error` models any exception raised by it.  On `error` the
method prints a warning and returns `None`. -/
def analyze_secondary_structure (dssp : Except String (List DsspRow)) :
    Option (List (String × List Char)) :=
  match dssp with
  | .error _ => none
  | .ok rows => some (rows.foldl (fun m r => ssInsert m r.chain_id r.ss_type) [])

/-- The dict stored in `self.flexibility_data`. -/
structure FlexibilityData where
  b_factors : List ℚ
  secondary_structure : Option (List (String × List Char))
deriving DecidableEq

/-- Model of `analyze_flexibility` (src/BindSite.py lines 137-143). -/
def analyze_flexibility (struct : PStructure)
    (dssp : Except String (List DsspRow)) : FlexibilityData :=
  { b_factors := extract_b_factors struct
    secondary_structure := analyze_secondary_structure dssp }

/-! ## Helper lemmas -/

lemma flush_length (st : List Pocket × Option Pocket) :
    (flushPockets st).length = st.1.length + (if st.2.isSome then 1 else 0) := by
  obtain ⟨a, c⟩ := st
  cases c <;> simp [flushPockets]

lemma processLine_pocket (st : List Pocket × Option Pocket) (line : String)
    (h : pyStartsWith line "Pocket" = true) :
    processLine st line = (flushPockets st, some freshPocket) := by
  unfold processLine
  rw [if_pos h]

lemma processLine_not_pocket (st : List Pocket × Option Pocket) (line : String)
    (h : pyStartsWith line "Pocket" = false) :
    (processLine st line).1 = st.1 ∧
    (processLine st line).2.isSome = st.2.isSome := by
  obtain ⟨a, c⟩ := st
  unfold processLine
  rw [if_neg (by simp [h])]
  cases c with
  | none => exact ⟨rfl, rfl⟩
  | some p => dsimp only; split_ifs <;> simp

lemma parse_loop_count (lines : List String) :
    ∀ st : List Pocket × Option Pocket,
      (flushPockets (lines.foldl processLine st)).length
        = (flushPockets st).length
            + lines.countP (fun l => pyStartsWith l "Pocket") := by
  induction lines with
  | nil => intro st; simp
  | cons l ls ih =>
    intro st
    rw [List.foldl_cons, List.countP_cons, ih]
    by_cases h : pyStartsWith l "Pocket"
    · rw [processLine_pocket st l h]
      have : (flushPockets (flushPockets st, some freshPocket)).length
          = (flushPockets st).length + 1 := by
        simp [flushPockets]
      rw [this]
      simp [h]
      omega
    · have hkeep := processLine_not_pocket st l (by simpa using h)
      have : (flushPockets (processLine st l)).length = (flushPockets st).length := by
        rw [flush_length, flush_length, hkeep.1, hkeep.2]
      rw [this]
      simp [h]

lemma analyze_pocket_in_range (pockets : List Pocket) (i : Int)
    (h1 : 0 < pockets.length) (h2 : -(pockets.length : Int) ≤ i)
    (h3 : i < (pockets.length : Int)) :
    analyze_pocket pockets i
      = .ok ⟨(pockets.getD (if i < 0 then i + pockets.length else i).toNat
                freshPocket).volume,
             (pockets.getD (if i < 0 then i + pockets.length else i).toNat
                freshPocket).score⟩ := by
  unfold analyze_pocket pyIndex
  rw [if_neg (by omega)]
  dsimp only
  rw [if_pos (by constructor <;> split_ifs <;> omega)]

lemma getD_ok_mem {l : List Pocket} {j : Int} {p : Pocket}
    (hb : 0 ≤ j ∧ j < (l.length : Int))
    (h : PyResult.ok (l.getD j.toNat freshPocket) = PyResult.ok p) : p ∈ l := by
  have hlt : j.toNat < l.length := by omega
  have hx : l.getD j.toNat freshPocket = l[j.toNat] :=
    List.getD_eq_getElem l freshPocket hlt
  have hp : l.getD j.toNat freshPocket = p := by injection h
  rw [← hp, hx]
  exact List.getElem_mem hlt

lemma pyIndex_ok_mem {l : List Pocket} {i : Int} {p : Pocket}
    (h : pyIndex l i = .ok p) : p ∈ l := by
  unfold pyIndex at h
  dsimp only at h
  by_cases hi : i < 0
  · rw [if_pos hi] at h
    by_cases hb : 0 ≤ i + (l.length : Int) ∧ i + (l.length : Int) < (l.length : Int)
    · rw [if_pos hb] at h
      exact getD_ok_mem hb h
    · rw [if_neg hb] at h
      simp at h
  · rw [if_neg hi] at h
    by_cases hb : 0 ≤ i ∧ i < (l.length : Int)
    · rw [if_pos hb] at h
      exact getD_ok_mem hb h
    · rw [if_neg hb] at h
      simp at h

/-! ## Claim theorems -/

/-- C1: the number of pocket records produced by the report scan equals the
number of lines starting with "Pocket": every such line opens a record and
flushes the previous one, the final in-progress record is flushed after the
scan, and a report with no "Pocket" lines yields an empty sequence. -/
theorem pocket_count_eq (lines : List String) :
    (parsePocketLines lines).length
        = lines.countP (fun l => pyStartsWith l "Pocket") ∧
    (lines.countP (fun l => pyStartsWith l "Pocket") = 0 →
        parsePocketLines lines = []) := by
  have h := parse_loop_count lines ([], none)
  have hlen : (parsePocketLines lines).length
      = lines.countP (fun l => pyStartsWith l "Pocket") := by
    simpa [parsePocketLines, flushPockets] using h
  refine ⟨hlen, fun h0 => ?_⟩
  have : (parsePocketLines lines).length = 0 := by rw [hlen, h0]
  exact List.length_eq_zero.mp this

/-- C1 witness: a report with no "Pocket" lines parses to the empty
sequence. -/
theorem pocket_count_eq_witness :
    parsePocketLines ["header line", "Min alpha sphere radius : 3.0"] = [] :=
  (pocket_count_eq ["header line", "Min alpha sphere radius : 3.0"]).2 (by decide)

/-- C2 counterexample: for the parsed one-pocket sequence of a concrete report,
the negative index -1 does not fail with a ValueError: Python indexing counts
it from the end and `analyze_pocket` returns the last record. -/
theorem analyze_pocket_neg_counterexample :
    analyze_pocket (parsePocketLines ["Pocket 1", "Volume : 10.0"]) (-1)
      = .ok ⟨some 10, none⟩ := by decide

/-- C2 amended: `analyze_pocket` fails with ValueError exactly on an empty
parsed sequence or an index at least the parsed count; a negative index on a
nonempty sequence follows Python indexing — below -count it raises IndexError
(not ValueError), otherwise it returns the record at count + index. -/
theorem analyze_pocket_index_spec (pockets : List Pocket) (i : Int) :
    (pockets.length = 0 ∨ (pockets.length : Int) ≤ i →
        analyze_pocket pockets i
          = .exn (.valueError ("Invalid pocket ID: " ++ toString i))) ∧
    (0 < pockets.length → i < -(pockets.length : Int) →
        analyze_pocket pockets i = .exn (.indexError "list index out of range")) ∧
    (0 < pockets.length → -(pockets.length : Int) ≤ i →
        i < (pockets.length : Int) →
        analyze_pocket pockets i
          = .ok ⟨(pockets.getD (if i < 0 then i + pockets.length else i).toNat
                    freshPocket).volume,
                 (pockets.getD (if i < 0 then i + pockets.length else i).toNat
                    freshPocket).score⟩) := by
  refine ⟨fun h => ?_, fun h1 h2 => ?_, fun h1 h2 h3 => ?_⟩
  · unfold analyze_pocket
    rw [if_pos (by omega)]
  · unfold analyze_pocket pyIndex
    rw [if_neg (by omega)]
    dsimp only
    rw [if_neg (by split_ifs <;> omega)]
  · exact analyze_pocket_in_range pockets i h1 h2 h3

/-- C2 amended witness: on a concrete one-record sequence, index 1 raises
ValueError, index -2 raises IndexError, and index -1 returns the record. -/
theorem analyze_pocket_index_spec_witness :
    analyze_pocket [⟨[], none, some 10⟩] 1
        = .exn (.valueError "Invalid pocket ID: 1") ∧
    analyze_pocket [⟨[], none, some 10⟩] (-2)
        = .exn (.indexError "list index out of range") ∧
    analyze_pocket [⟨[], none, some 10⟩] (-1) = .ok ⟨some 10, none⟩ := by
  refine ⟨?_, ?_, ?_⟩
  · have h := (analyze_pocket_index_spec [⟨[], none, some 10⟩] 1).1 (by decide)
    rw [h]; decide
  · exact (analyze_pocket_index_spec [⟨[], none, some 10⟩] (-2)).2.1
      (by decide) (by decide)
  · have h := (analyze_pocket_index_spec [⟨[], none, some 10⟩] (-1)).2.2
      (by decide) (by decide) (by decide)
    rw [h]; decide

/-- C3: a record line containing both "Score" and "Volume" is handled by the
Score branch (checked first): the last whitespace-delimited token, when it
parses as a float, is stored in the score field, and the volume field is left
untouched by the line. -/
theorem score_branch_wins (acc : List Pocket) (p : Pocket) (line : String)
    (hp : pyStartsWith line "Pocket" = false)
    (hb : pyStrip line ≠ "")
    (hs : strContains line "Score" = true)
    (hv : strContains line "Volume" = true) :
    processLine (acc, some p) line
      = (acc, some ⟨p.atoms,
          if 2 ≤ (pySplit (pyStrip line)).length
          then lastFloatUpd p.score (pySplit (pyStrip line)) else p.score,
          p.volume⟩) := by
  obtain ⟨a, s, v⟩ := p
  unfold processLine
  rw [if_neg (by simp [hp])]
  dsimp only
  rw [if_neg (by simpa using hb)]
  split_ifs <;> simp_all

/-- C3 witness: on a line containing both substrings, the numeric last token
lands in the score field while a previously set volume survives. -/
theorem score_branch_wins_witness :
    processLine ([], some ⟨[], none, some 7⟩) "Real Score Volume : 2.5"
      = ([], some ⟨[], some (mkRat 5 2), some 7⟩) := by
  have h := score_branch_wins [] ⟨[], none, some 7⟩ "Real Score Volume : 2.5"
    (by decide) (by decide) (by decide) (by decide)
  rw [h]; decide

/-- C4: a "Score" or "Volume" line whose last token does not parse as a float
neither raises nor aborts the scan: the step leaves the record (and the
accumulated list) exactly unchanged, so the field stays unset unless another
line of the record sets it. -/
theorem malformed_token_kept (acc : List Pocket) (p : Pocket) (line : String)
    (hp : pyStartsWith line "Pocket" = false)
    (hsv : strContains line "Score" = true ∨ strContains line "Volume" = true)
    (hbad : pyFloat? ((pySplit (pyStrip line)).getLastD "") = none) :
    processLine (acc, some p) line = (acc, some p) := by
  obtain ⟨a, s, v⟩ := p
  unfold processLine
  rw [if_neg (by simp [hp])]
  dsimp only
  split_ifs <;> simp_all [lastFloatUpd, hbad]

/-- C4 witness: the canonical malformed line "Score: n/a" leaves a fresh record
unchanged. -/
theorem malformed_token_kept_witness :
    processLine ([], some freshPocket) "Score: n/a" = ([], some freshPocket) :=
  malformed_token_kept [] freshPocket "Score: n/a" (by decide)
    (Or.inl (by decide)) (by decide)

/-- C5: when the ligand path does not exist, `analyze_ligand_compatibility`
raises FileNotFoundError for every pocket list and every index — also invalid
ones — so the failure happens before any pocket lookup. -/
theorem missing_ligand_fails_first (fileExists : String → Bool)
    (pockets : List Pocket) (ligand : String) (pocket_id : Int)
    (h : fileExists ligand = false) :
    analyze_ligand_compatibility fileExists pockets ligand pocket_id
      = .exn (.fileNotFoundError ("Ligand file not found: " ++ ligand)) := by
  unfold analyze_ligand_compatibility
  rw [if_pos h]

/-- C5 witness: a missing ligand file fails with FileNotFoundError even at an
out-of-range index of an empty pocket list. -/
theorem missing_ligand_fails_first_witness :
    analyze_ligand_compatibility (fun _ => false) [] "ligand.mol2" 5
      = .exn (.fileNotFoundError "Ligand file not found: ligand.mol2") := by
  have h := missing_ligand_fails_first (fun _ => false) [] "ligand.mol2" 5 rfl
  rw [h]; decide

/-- C6: for an existing ligand file and an in-bounds index i,
`analyze_ligand_compatibility` returns exactly the flat record built from the
i-th pocket's volume and score, the 1-based rank i + 1, and the total parsed
pocket count. -/
theorem compatibility_projection (fileExists : String → Bool)
    (pockets : List Pocket) (ligand : String) (i : Int)
    (hex : fileExists ligand = true) (h0 : 0 ≤ i)
    (hlt : i < (pockets.length : Int)) :
    analyze_ligand_compatibility fileExists pockets ligand i
      = .ok ⟨(pockets.getD i.toNat freshPocket).volume,
             (pockets.getD i.toNat freshPocket).score,
             i + 1, pockets.length⟩ := by
  unfold analyze_ligand_compatibility
  rw [if_neg (by simp [hex])]
  have hap := analyze_pocket_in_range pockets i (by omega) (by omega) hlt
  rw [if_neg (by omega)] at hap
  rw [hap]

/-- C6 witness: the end-to-end example — two-pocket report, first pocket
Score 0.8 and Volume 150.0, existing ligand, index 0 — yields volume 150,
score 4/5, rank 1 and total count 2. -/
theorem compatibility_projection_witness :
    analyze_ligand_compatibility (fun _ => true)
        (parsePocketLines ["Pocket 1", "Score : 0.8", "Volume : 150.0",
          "Pocket 2", "Score : 0.3", "Volume : 80.0"])
        "ligand.mol2" 0
      = .ok ⟨some 150, some (mkRat 4 5), 1, 2⟩ := by
  have h := compatibility_projection (fun _ => true)
    (parsePocketLines ["Pocket 1", "Score : 0.8", "Volume : 150.0",
      "Pocket 2", "Score : 0.3", "Volume : 80.0"])
    "ligand.mol2" 0 rfl (by decide) (by decide)
  rw [h]; decide

/-- C7: when the expected report file `<basename>_out/<basename>_info.txt` does
not exist, `parse_fpocket_results` raises FileNotFoundError and leaves
`self.pockets` as it was — it neither returns nor installs an empty
sequence. -/
theorem missing_report_raises (fileExists : String → Bool)
    (readLines : String → List String) (pdb_file : String)
    (pockets : List Pocket)
    (h : fileExists (fpocketInfoFile pdb_file) = false) :
    parse_fpocket_results fileExists readLines pdb_file pockets
      = (some (.fileNotFoundError
            ("fpocket output not found at: " ++ fpocketInfoFile pdb_file)),
         pockets) := by
  unfold parse_fpocket_results
  rw [if_pos h]

/-- C7 witness: for structure file "protein.pdb" the expected path is
"protein_out/protein_info.txt"; with it absent the parse raises and a
previously parsed record survives. -/
theorem missing_report_raises_witness :
    parse_fpocket_results (fun _ => false) (fun _ => []) "protein.pdb"
        [freshPocket]
      = (some (.fileNotFoundError
            "fpocket output not found at: protein_out/protein_info.txt"),
         [freshPocket]) := by
  have h := missing_report_raises (fun _ => false) (fun _ => []) "protein.pdb"
    [freshPocket] rfl
  rw [h]; decide

/-- C8: any failure of the external secondary-structure annotator is not
propagated: `analyze_secondary_structure` returns the absent result, and
`analyze_flexibility` still completes, pairing the B-factor sequence with that
absent result. -/
theorem dssp_failure_tolerated (struct : PStructure) (e : String) :
    analyze_secondary_structure (.error e) = none ∧
    analyze_flexibility struct (.error e)
      = ⟨extract_b_factors struct, none⟩ := ⟨rfl, rfl⟩

/-- C9: the read-only operations do not modify the parsed state: the
state-passing forms of `analyze_pocket` and `analyze_ligand_compatibility`
return the pocket list (hence every record's fields) unchanged, and a
successful compatibility record is a pure projection of one stored record
plus the index and count. -/
theorem lookup_readonly (fileExists : String → Bool) (pockets : List Pocket)
    (ligand : String) (i j : Int) :
    (analyze_pocket_st pockets i).2 = pockets ∧
    (analyze_ligand_compatibility_st fileExists pockets ligand j).2 = pockets ∧
    (∀ c, analyze_ligand_compatibility fileExists pockets ligand j = .ok c →
      ∃ p ∈ pockets, c.pocket_volume = p.volume ∧ c.pocket_score = p.score ∧
        c.binding_site_rank = j + 1 ∧ c.total_pockets_found = pockets.length) := by
  refine ⟨rfl, rfl, fun c hc => ?_⟩
  unfold analyze_ligand_compatibility at hc
  split_ifs at hc
  cases hap : analyze_pocket pockets j with
  | exn e => rw [hap] at hc; cases hc
  | ok pa =>
    rw [hap] at hc
    cases hc
    unfold analyze_pocket at hap
    split_ifs at hap
    cases hpi : pyIndex pockets j with
    | exn e => rw [hpi] at hap; cases hap
    | ok p =>
      rw [hpi] at hap
      cases hap
      exact ⟨p, pyIndex_ok_mem hpi, rfl, rfl, rfl, rfl⟩

/-- C9 witness: concrete instantiation on a one-record list — the state
components are unchanged and the returned record projects that record. -/
theorem lookup_readonly_witness :
    (analyze_pocket_st [⟨[], some 1, some 2⟩] 0).2 = [⟨[], some 1, some 2⟩] ∧
    ∃ p ∈ [(⟨[], some 1, some 2⟩ : Pocket)],
      (⟨some 2, some 1, 1, 1⟩ : Compatibility).pocket_volume = p.volume ∧
      (⟨some 2, some 1, 1, 1⟩ : Compatibility).pocket_score = p.score ∧
      (⟨some 2, some 1, 1, 1⟩ : Compatibility).binding_site_rank = 0 + 1 ∧
      (⟨some 2, some 1, 1, 1⟩ : Compatibility).total_pockets_found
        = [(⟨[], some 1, some 2⟩ : Pocket)].length := by
  have h := lookup_readonly (fun _ => true) [⟨[], some 1, some 2⟩] "lig" 0 0
  exact ⟨h.1, h.2.2 ⟨some 2, some 1, 1, 1⟩ (by decide)⟩

/-- C10: `parse_fpocket_results` replaces any previously parsed state: on an
existing report the new pocket list is the parse of the report's lines,
independent of the prior list, and running the parse twice in succession gives
exactly the result of running it once. -/
theorem parse_replaces_state (fileExists : String → Bool)
    (readLines : String → List String) (pdb_file : String)
    (pockets : List Pocket) :
    parse_fpocket_results fileExists readLines pdb_file
        (parse_fpocket_results fileExists readLines pdb_file pockets).2
      = parse_fpocket_results fileExists readLines pdb_file pockets ∧
    (fileExists (fpocketInfoFile pdb_file) = true →
      (parse_fpocket_results fileExists readLines pdb_file pockets).2
        = parsePocketLines (readLines (fpocketInfoFile pdb_file))) := by
  unfold parse_fpocket_results
  dsimp only
  split_ifs with h
  · exact ⟨rfl, fun ht => by rw [ht] at h; cases h⟩
  · exact ⟨rfl, fun _ => rfl⟩

/-- C10 witness: re-parsing a concrete report over a stale nonempty state
installs exactly the freshly parsed sequence. -/
theorem parse_replaces_state_witness :
    (parse_fpocket_results (fun _ => true) (fun _ => ["Pocket 1"]) "p.pdb"
        [⟨[], some 1, none⟩]).2
      = parsePocketLines ["Pocket 1"] := by
  have h := (parse_replaces_state (fun _ => true) (fun _ => ["Pocket 1"])
    "p.pdb" [⟨[], some 1, none⟩]).2 rfl
  exact h

end BindSite
